import Mathlib

/-!
Verification of the `wataxrate` library (WA state sales-tax lookup) against
its design specification.  The Rust source (`src/lib.rs`) is shallowly
embedded below: pure functions become Lean functions, the async retry loop
becomes a fuel-indexed recursion over a sequence of per-attempt outcomes,
`u8` is modelled as `Nat` with an explicit `< 256` bound where it matters,
and the `f32` rate fields are carried as `ℚ` (they are only ever stored and
compared, never computed with, in the code under verification).
-/

set_option maxRecDepth 8192

namespace Wataxrate

instance {ε α : Type} [DecidableEq ε] [DecidableEq α] :
    DecidableEq (Except ε α) := fun x y =>
  match x, y with
  | .ok a, .ok b =>
    if h : a = b then isTrue (h ▸ rfl)
    else isFalse fun hc => h (Except.ok.inj hc)
  | .error a, .error b =>
    if h : a = b then isTrue (h ▸ rfl)
    else isFalse fun hc => h (Except.error.inj hc)
  | .ok _, .error _ => isFalse fun hc => Except.noConfusion hc
  | .error _, .ok _ => isFalse fun hc => Except.noConfusion hc

/-- Status codes returned by the DOR service, from `enum Code` in
`src/lib.rs`. -/
inductive Code
  | AddrFound
  | AddrNotFoundZipFound
  | AdrrUpdatedAndFoundValidate
  | AddrUpdatedAndZipFoundValidate
  | AddrCorrectedAndFoundValidate
  | Zip5FoundNoAddrOrZip4
  | NoAddrNoZips
  | InvalidLongLat
  | InternalError
deriving DecidableEq, Repr, Fintype

/-- `Code::is_error` from `src/lib.rs`: true when the returned values are
garbage. -/
def Code.is_error : Code → Bool
  | .NoAddrNoZips => true
  | .InvalidLongLat => true
  | .InternalError => true
  | _ => false

/-- `Code::retryable` from `src/lib.rs`. -/
def Code.retryable (c : Code) : Bool :=
  Code.InternalError = c

/-- `impl TryFrom<u8> for Code` from `src/lib.rs`; the `u8` argument is a
`Nat` (callers quantify with `n < 256` where the full `u8` range matters). -/
def Code.tryFrom (value : Nat) : Except String Code :=
  match value with
  | 0 => .ok .AddrFound
  | 1 => .ok .AddrNotFoundZipFound
  | 2 => .ok .AdrrUpdatedAndFoundValidate
  | 3 => .ok .AddrUpdatedAndZipFoundValidate
  | 4 => .ok .AddrCorrectedAndFoundValidate
  | 5 => .ok .Zip5FoundNoAddrOrZip4
  | 6 => .ok .NoAddrNoZips
  | 7 => .ok .InvalidLongLat
  | 9 => .ok .InternalError
  | _ => .error "code provided not valid"

/-- The wire value of each status code, the inverse of the `TryFrom<u8>`
table (used to state claims about "the code's numeric value"). -/
def Code.num : Code → Nat
  | .AddrFound => 0
  | .AddrNotFoundZipFound => 1
  | .AdrrUpdatedAndFoundValidate => 2
  | .AddrUpdatedAndZipFoundValidate => 3
  | .AddrCorrectedAndFoundValidate => 4
  | .Zip5FoundNoAddrOrZip4 => 5
  | .NoAddrNoZips => 6
  | .InvalidLongLat => 7
  | .InternalError => 9

/-- C1 counterexample: the claim says classification fails for every `u8`
outside {0,1,2,3,4,5,6,9}, but the code accepts 7 and returns
`InvalidLongLat`. -/
theorem claim_C1_cex :
    7 ∉ ([0, 1, 2, 3, 4, 5, 6, 9] : List Nat) ∧
    Code.tryFrom 7 = Except.ok Code.InvalidLongLat := by
  decide

/-- C1 (amended): for every `u8` value in {0,1,2,3,4,5,6,7,9}, status-code
classification (`TryFrom<u8> for Code`) succeeds and returns the documented
enumeration member; for every other `u8` value (including 8),
classification fails with an error. -/
theorem claim_C1 :
    (∀ n : Nat, n < 256 →
      ((∃ c, Code.tryFrom n = Except.ok c) ↔
        n ∈ ([0, 1, 2, 3, 4, 5, 6, 7, 9] : List Nat))) ∧
    Code.tryFrom 0 = Except.ok Code.AddrFound ∧
    Code.tryFrom 1 = Except.ok Code.AddrNotFoundZipFound ∧
    Code.tryFrom 2 = Except.ok Code.AdrrUpdatedAndFoundValidate ∧
    Code.tryFrom 3 = Except.ok Code.AddrUpdatedAndZipFoundValidate ∧
    Code.tryFrom 4 = Except.ok Code.AddrCorrectedAndFoundValidate ∧
    Code.tryFrom 5 = Except.ok Code.Zip5FoundNoAddrOrZip4 ∧
    Code.tryFrom 6 = Except.ok Code.NoAddrNoZips ∧
    Code.tryFrom 7 = Except.ok Code.InvalidLongLat ∧
    Code.tryFrom 9 = Except.ok Code.InternalError ∧
    Code.tryFrom 8 = Except.error "code provided not valid" := by
  refine ⟨?_, by decide, by decide, by decide, by decide, by decide,
    by decide, by decide, by decide, by decide, by decide⟩
  decide

/-- C1 witness: the amended equivalence, instantiated at the disputed
value 8, with the range hypothesis discharged concretely. -/
theorem claim_C1_witness :
    (∃ c, Code.tryFrom 8 = Except.ok c) ↔
      8 ∈ ([0, 1, 2, 3, 4, 5, 6, 7, 9] : List Nat) :=
  claim_C1.1 8 (by decide)

/-- C2: `is_error` is true exactly for the codes whose wire value is in
{6, 7, 9}, and `retryable` is true exactly for wire value 9; `Code.num`
is tied to the source's `TryFrom<u8>` table by the first conjunct. -/
theorem claim_C2 :
    (∀ c : Code, Code.tryFrom c.num = Except.ok c) ∧
    (∀ c : Code, c.is_error = decide (c.num = 6 ∨ c.num = 7 ∨ c.num = 9)) ∧
    (∀ c : Code, c.retryable = decide (c.num = 9)) := by
  refine ⟨?_, ?_, ?_⟩ <;> decide

/-- C10: a retryable status code is always an error status code. -/
theorem claim_C10 (c : Code) (h : c.retryable = true) : c.is_error = true := by
  revert h
  revert c
  decide

/-- C10 witness: the only retryable code, `InternalError`, is indeed an
error code. -/
theorem claim_C10_witness :
    Code.retryable Code.InternalError = true ∧
    Code.is_error Code.InternalError = true :=
  ⟨by decide, claim_C10 Code.InternalError (by decide)⟩

/-- `struct Address` from `src/lib.rs`: the address echo parsed by DOR,
all fields optional. -/
structure Address where
  househigh : Option Nat
  houselow : Option Nat
  evenodd : Option String
  street : Option String
  zip : Option Nat
  plus4 : Option Nat
  period : Option String
  rta : Option String
  ptba : Option String
  cez : Option String
deriving DecidableEq, Repr

/-- `struct TaxRate` from `src/lib.rs`; the two `f32` rate fields are
carried as `ℚ` (stored, never computed with). -/
structure TaxRate where
  name : String
  code : String
  localrate : ℚ
  staterate : ℚ
deriving DecidableEq, Repr

/-- `struct TaxInfo` from `src/lib.rs`: the decoded response payload.
`loccode` is an `i32` modelled as `ℤ`; the `f32` rates are carried as
`ℚ`. -/
structure TaxInfo where
  loccode : ℤ
  rate : ℚ
  code : Code
  localrate : ℚ
  debughint : Option String
  address : Option Address
  taxrate : Option TaxRate
deriving DecidableEq, Repr

/-- Model of `reqwest::Error`: the only part the code inspects is
`status()`, the HTTP status when one is available (`none` for
connection-level failures). -/
structure ReqwestError where
  status : Option Nat
deriving DecidableEq, Repr

/-- `http::StatusCode::is_server_error`: the 5xx class. -/
def isServerError (s : Nat) : Bool :=
  500 ≤ s ∧ s < 600

/-- `enum TaxInfoError` from `src/lib.rs`. The Rust `Dor` variant carries
a `(Code, TaxInfo)` tuple, modelled as two fields. -/
inductive TaxInfoError
  | Http (re : ReqwestError)
  | Dor (code : Code) (info : TaxInfo)
  | Internal (msg : String)
  | NoMoreRetries
deriving DecidableEq, Repr

/-- `TaxInfoError::retryable` from `src/lib.rs`: `re.status().map(|s|
s.is_server_error()).unwrap_or(true)` becomes `Option.map` plus
`Option.getD true`. -/
def TaxInfoError.retryable : TaxInfoError → Bool
  | .NoMoreRetries => false
  | .Dor code _ => code.retryable
  | .Http re => (re.status.map isServerError).getD true
  | .Internal _ => false

/-- C6: a transport-failure error is retryable exactly when the underlying
HTTP status is in the 5xx class or absent (connection-level failure); in
particular every 4xx status is not retryable. -/
theorem claim_C6 :
    (∀ re : ReqwestError,
      (TaxInfoError.Http re).retryable = true ↔
        re.status = none ∨ ∃ s, re.status = some s ∧ 500 ≤ s ∧ s < 600) ∧
    (∀ s : Nat, 400 ≤ s → s < 500 →
      (TaxInfoError.Http ⟨some s⟩).retryable = false) := by
  constructor
  · intro re
    cases h : re.status with
    | none => simp [TaxInfoError.retryable, h]
    | some s =>
      simp [TaxInfoError.retryable, h, isServerError]
  · intro s h4 h5
    simp [TaxInfoError.retryable, isServerError]
    omega

/-- C6 witness: a 404 response is not retryable, while a 503 and a
connection-level failure (no status) are. -/
theorem claim_C6_witness :
    (TaxInfoError.Http ⟨some 404⟩).retryable = false ∧
    ((TaxInfoError.Http ⟨some 503⟩).retryable = true ↔
      (some 503 : Option Nat) = none ∨
        ∃ s, (some 503 : Option Nat) = some s ∧ 500 ≤ s ∧ s < 600) :=
  ⟨claim_C6.2 404 (by decide) (by decide), claim_C6.1 ⟨some 503⟩⟩

/-- Digit-string value, most significant first. -/
def digitsVal (l : List Char) : Nat :=
  l.foldl (fun a c => a * 10 + (c.toNat - 48)) 0

/-- Parse a nonempty all-digit character list as a `Nat`; `none`
otherwise. -/
def parseDigits (l : List Char) : Option Nat :=
  if l.isEmpty then none
  else if l.all Char.isDigit then some (digitsVal l)
  else none

/-- Model of Rust `str::parse::<u8>` as used by `FromStr for Code`: an
optional leading sign, then one or more digits, rejecting values over the
`u8` maximum. -/
def parseU8 (s : String) : Option Nat :=
  let ds := match s.data with
    | '+' :: rest => rest
    | l => l
  match parseDigits ds with
  | some n => if n < 256 then some n else none
  | none => none

/-- `impl FromStr for Code` from `src/lib.rs`: parse the string as a `u8`
(failing with "did not use integer as code") and then classify it through
`TryFrom<u8>`. -/
def Code.fromStr (s : String) : Except String Code :=
  match parseU8 s with
  | none => .error "did not use integer as code"
  | some n => Code.tryFrom n

/-- The decode-and-classify tail of `get_basic` in `src/lib.rs`: the
`match TaxInfo::from_str(&raw_string)` expression, as a function of the
decode result. -/
def classifyDecode : Except String TaxInfo → Except TaxInfoError TaxInfo
  | .ok rti =>
    if rti.code.is_error then .error (.Dor rti.code rti) else .ok rti
  | .error _ => .error (.Internal "Error parsing response from DOR")

/-- `get_basic` after the HTTP exchange, parameterised by the decoder
(`TaxInfo::from_str`) and applied to the raw response body. -/
def getBasicModel (decode : String → Except String TaxInfo)
    (body : String) : Except TaxInfoError TaxInfo :=
  classifyDecode (decode body)

/-- C3: when the body decodes to a `TaxInfo`, `get_basic` returns it as
success exactly when its embedded code is not an error; otherwise it
returns a `Dor` error carrying the code and the full payload, whose
retryability equals the code's own retryability. -/
theorem claim_C3 (decode : String → Except String TaxInfo) (body : String)
    (rti : TaxInfo) (h : decode body = Except.ok rti) :
    (getBasicModel decode body = Except.ok rti ↔ rti.code.is_error = false) ∧
    (rti.code.is_error = true →
      getBasicModel decode body =
        Except.error (TaxInfoError.Dor rti.code rti) ∧
      (TaxInfoError.Dor rti.code rti).retryable = rti.code.retryable) := by
  unfold getBasicModel classifyDecode
  rw [h]
  cases hE : rti.code.is_error <;>
    simp [hE, TaxInfoError.retryable]

/-- A concrete decoded payload used by witnesses. -/
def sampleTaxInfo : TaxInfo :=
  { loccode := 1234, rate := 95 / 1000, code := .AddrFound, localrate := 0,
    debughint := none, address := none, taxrate := none }

/-- C3 witness: a decoder returning a non-error payload makes the
pipeline succeed with that payload. -/
theorem claim_C3_witness :
    (getBasicModel (fun _ => Except.ok sampleTaxInfo) "body" =
        Except.ok sampleTaxInfo ↔ sampleTaxInfo.code.is_error = false) ∧
    (sampleTaxInfo.code.is_error = true →
      getBasicModel (fun _ => Except.ok sampleTaxInfo) "body" =
        Except.error (TaxInfoError.Dor sampleTaxInfo.code sampleTaxInfo) ∧
      (TaxInfoError.Dor sampleTaxInfo.code sampleTaxInfo).retryable =
        sampleTaxInfo.code.retryable) :=
  claim_C3 (fun _ => Except.ok sampleTaxInfo) "body" sampleTaxInfo rfl

/-- C7: a status-code string that is non-numeric, or numeric but outside
the closed enumeration, fails to decode (a successful decode always comes
from a numeric in-range parse, never a default), and `get_basic` turns
every decode failure into the non-retryable `Internal` error. -/
theorem claim_C7 :
    (∀ s c, Code.fromStr s = Except.ok c →
      ∃ n, parseU8 s = some n ∧ Code.tryFrom n = Except.ok c) ∧
    (∀ s, parseU8 s = none →
      Code.fromStr s = Except.error "did not use integer as code") ∧
    (∀ s n, parseU8 s = some n → n ∉ ([0, 1, 2, 3, 4, 5, 6, 7, 9] : List Nat) →
      Code.fromStr s = Except.error "code provided not valid") ∧
    (∀ decode body m, decode body = Except.error m →
      getBasicModel decode body =
        Except.error (TaxInfoError.Internal "Error parsing response from DOR")) ∧
    (∀ m, (TaxInfoError.Internal m).retryable = false) := by
  refine ⟨?_, ?_, ?_, ?_, ?_⟩
  · intro s c h
    unfold Code.fromStr at h
    cases hp : parseU8 s with
    | none => rw [hp] at h; exact absurd h (by simp)
    | some n => rw [hp] at h; exact ⟨n, rfl, h⟩
  · intro s h
    unfold Code.fromStr
    rw [h]
  · intro s n hp hn
    unfold Code.fromStr
    rw [hp]
    have h8 : n = 8 ∨ 10 ≤ n := by
      simp only [List.mem_cons, List.not_mem_nil, or_false] at hn
      omega
    rcases h8 with h8 | h8
    · subst h8; rfl
    · have hn : n = n - 10 + 10 := by omega
      rw [hn]
      rfl
  · intro decode body m h
    unfold getBasicModel classifyDecode
    rw [h]
  · intro m
    rfl

/-- C7 witness: the non-numeric string "abc" and the in-`u8`-range but
out-of-enumeration value 8 both fail, and a failing decoder yields the
non-retryable `Internal` error. -/
theorem claim_C7_witness :
    Code.fromStr "abc" = Except.error "did not use integer as code" ∧
    Code.fromStr "8" = Except.error "code provided not valid" ∧
    getBasicModel (fun _ => Except.error "bad xml") "body" =
      Except.error (TaxInfoError.Internal "Error parsing response from DOR") :=
  ⟨claim_C7.2.1 "abc" (by decide),
   claim_C7.2.2.1 "8" 8 (by decide) (by decide),
   claim_C7.2.2.2.1 (fun _ => Except.error "bad xml") "body" "bad xml" rfl⟩

/-- C8: the decode-and-classify pipeline is a pure function of the
response body: identical bodies (under the same decoder) yield equal
(`PartialEq`) results, with no state carried between calls. -/
theorem claim_C8 (decode : String → Except String TaxInfo)
    (b1 b2 : String) (h : b1 = b2) :
    getBasicModel decode b1 = getBasicModel decode b2 := by
  rw [h]

/-- C8 witness: two invocations on the same concrete body agree. -/
theorem claim_C8_witness :
    getBasicModel (fun _ => Except.ok sampleTaxInfo) "same body" =
      getBasicModel (fun _ => Except.ok sampleTaxInfo) "same body" :=
  claim_C8 (fun _ => Except.ok sampleTaxInfo) "same body" "same body" rfl

/-- `MAX_ATTEMPTS` from `src/lib.rs`. -/
def MAX_ATTEMPTS : Nat := 3

/-- Outcome of one `tokio::time::timeout(DEFAULT_TIMEOUT, get_basic(..))`
attempt inside `get`: the inner call finished with `Ok`, finished with
`Err`, or the deadline elapsed first (wall-clock time is abstracted into
this outcome). -/
inductive AttemptOutcome
  | ok (t : TaxInfo)
  | err (e : TaxInfoError)
  | elapsed
deriving DecidableEq, Repr

/-- An attempt outcome that the loop treats as "try again": a timeout or
a retryable error. -/
def AttemptOutcome.retriesOn : AttemptOutcome → Prop
  | .ok _ => False
  | .err e => e.retryable = true
  | .elapsed => True

instance (o : AttemptOutcome) : Decidable o.retriesOn := by
  cases o <;> simp [AttemptOutcome.retriesOn] <;> infer_instance

/-- The `while remaining_attempts > 0` loop of `get` in `src/lib.rs`,
indexed by the attempt number `i` and the remaining attempt budget, over a
sequence `f` of per-attempt outcomes. -/
def getLoop (f : Nat → AttemptOutcome) (i : Nat) :
    Nat → Except TaxInfoError TaxInfo
  | 0 => .error .NoMoreRetries
  | r + 1 =>
    match f i with
    | .ok t => .ok t
    | .err e => if e.retryable then getLoop f (i + 1) r else .error e
    | .elapsed => getLoop f (i + 1) r

/-- `get` from `src/lib.rs`, as a function of the per-attempt outcome
sequence. -/
def get (f : Nat → AttemptOutcome) : Except TaxInfoError TaxInfo :=
  getLoop f 0 MAX_ATTEMPTS

/-- Number of attempts (calls to `get_basic`) the loop actually runs. -/
def attemptsLoop (f : Nat → AttemptOutcome) (i : Nat) : Nat → Nat
  | 0 => 0
  | r + 1 =>
    match f i with
    | .ok _ => 1
    | .err e => if e.retryable then 1 + attemptsLoop f (i + 1) r else 1
    | .elapsed => 1 + attemptsLoop f (i + 1) r

/-- Attempts used by `get` over the outcome sequence `f`. -/
def attemptsUsed (f : Nat → AttemptOutcome) : Nat :=
  attemptsLoop f 0 MAX_ATTEMPTS

theorem attemptsLoop_le (f : Nat → AttemptOutcome) :
    ∀ r i, attemptsLoop f i r ≤ r := by
  intro r
  induction r with
  | zero => intro i; simp [attemptsLoop]
  | succ r ih =>
    intro i
    cases ho : f i with
    | ok t => simp [attemptsLoop, ho]
    | err e =>
      by_cases hr : e.retryable = true
      · have := ih (i + 1)
        simp only [attemptsLoop, ho, hr, if_true]
        omega
      · simp [attemptsLoop, ho, hr]
    | elapsed =>
      have := ih (i + 1)
      simp only [attemptsLoop, ho]
      omega

theorem getLoop_exhaust (f : Nat → AttemptOutcome) :
    ∀ r i, (∀ j, j < r → (f (i + j)).retriesOn) →
      getLoop f i r = Except.error TaxInfoError.NoMoreRetries := by
  intro r
  induction r with
  | zero => intro i _; rfl
  | succ r ih =>
    intro i h
    have h0 : (f i).retriesOn := by simpa using h 0 (Nat.zero_lt_succ r)
    have hrest : ∀ j, j < r → (f (i + 1 + j)).retriesOn := by
      intro j hj
      have := h (j + 1) (by omega)
      have harith : i + (j + 1) = i + 1 + j := by omega
      rwa [harith] at this
    cases ho : f i with
    | ok t => rw [ho] at h0; exact absurd h0 (by simp [AttemptOutcome.retriesOn])
    | err e =>
      rw [ho] at h0
      simp only [AttemptOutcome.retriesOn] at h0
      have step : getLoop f i (r + 1) = getLoop f (i + 1) r := by
        simp [getLoop, ho, h0]
      rw [step]
      exact ih (i + 1) hrest
    | elapsed =>
      have step : getLoop f i (r + 1) = getLoop f (i + 1) r := by
        simp [getLoop, ho]
      rw [step]
      exact ih (i + 1) hrest

/-- C4: over any per-attempt outcome sequence, `get` runs at most
`MAX_ATTEMPTS = 3` attempts; a success or a non-retryable error on the
first attempt is returned immediately, a retryable error or an elapsed
timeout consumes one unit of budget and continues with the next attempt,
two timeouts followed by a success yield that success in exactly 3
attempts, and when every attempt in the budget is a "try again" outcome
`get` returns `NoMoreRetries`. -/
theorem claim_C4 (f : Nat → AttemptOutcome) :
    (attemptsUsed f ≤ MAX_ATTEMPTS ∧ MAX_ATTEMPTS = 3) ∧
    (∀ t, f 0 = AttemptOutcome.ok t →
      get f = Except.ok t ∧ attemptsUsed f = 1) ∧
    (∀ e, f 0 = AttemptOutcome.err e → e.retryable = false →
      get f = Except.error e ∧ attemptsUsed f = 1) ∧
    (∀ i r, (f i).retriesOn → getLoop f i (r + 1) = getLoop f (i + 1) r) ∧
    (∀ t, f 0 = AttemptOutcome.elapsed → f 1 = AttemptOutcome.elapsed →
      f 2 = AttemptOutcome.ok t → get f = Except.ok t ∧ attemptsUsed f = 3) ∧
    ((∀ i, i < MAX_ATTEMPTS → (f i).retriesOn) →
      get f = Except.error TaxInfoError.NoMoreRetries) := by
  refine ⟨⟨attemptsLoop_le f MAX_ATTEMPTS 0, rfl⟩, ?_, ?_, ?_, ?_, ?_⟩
  · intro t h
    constructor <;> simp [get, getLoop, attemptsUsed, attemptsLoop, MAX_ATTEMPTS, h]
  · intro e h hr
    constructor <;> simp [get, getLoop, attemptsUsed, attemptsLoop, MAX_ATTEMPTS, h, hr]
  · intro i r h
    cases ho : f i with
    | ok t => rw [ho] at h; exact absurd h (by simp [AttemptOutcome.retriesOn])
    | err e =>
      rw [ho] at h
      simp only [AttemptOutcome.retriesOn] at h
      simp [getLoop, ho, h]
    | elapsed => simp [getLoop, ho]
  · intro t h0 h1 h2
    constructor <;>
      simp [get, getLoop, attemptsUsed, attemptsLoop, MAX_ATTEMPTS, h0, h1, h2]
  · intro h
    exact getLoop_exhaust f MAX_ATTEMPTS 0 (fun j hj => by
      simpa using h j (by simpa using hj))

/-- C4 witness: a sequence that times out on every attempt exhausts the
budget and returns `NoMoreRetries`, and its first timeout is a "try
again" outcome. -/
theorem claim_C4_witness :
    get (fun _ => AttemptOutcome.elapsed) =
      Except.error TaxInfoError.NoMoreRetries ∧
    getLoop (fun _ => AttemptOutcome.elapsed) 0 3 =
      getLoop (fun _ => AttemptOutcome.elapsed) 1 2 :=
  ⟨(claim_C4 (fun _ => AttemptOutcome.elapsed)).2.2.2.2.2
      (fun i _ => by simp [AttemptOutcome.retriesOn]),
   (claim_C4 (fun _ => AttemptOutcome.elapsed)).2.2.2.1 0 2
      (by simp [AttemptOutcome.retriesOn])⟩

theorem getLoop_error_not_retryable (f : Nat → AttemptOutcome) :
    ∀ r i e, getLoop f i r = Except.error e → e.retryable = false := by
  intro r
  induction r with
  | zero =>
    intro i e h
    simp only [getLoop] at h
    cases h
    rfl
  | succ r ih =>
    intro i e h
    cases ho : f i with
    | ok t => simp [getLoop, ho] at h
    | err e' =>
      by_cases hr : e'.retryable = true
      · simp only [getLoop, ho, hr, if_true] at h
        exact ih (i + 1) e h
      · simp only [getLoop, ho] at h
        rw [if_neg hr] at h
        cases h
        simpa using hr
    | elapsed =>
      simp only [getLoop, ho] at h
      exact ih (i + 1) e h

/-- C9: every error value that the public entry point `get` returns
reports `retryable() == false`: retryable errors are consumed by the
loop, and `NoMoreRetries` is itself not retryable. -/
theorem claim_C9 (f : Nat → AttemptOutcome) (e : TaxInfoError)
    (h : get f = Except.error e) : e.retryable = false :=
  getLoop_error_not_retryable f MAX_ATTEMPTS 0 e h

/-- C9 witness: exhausting the budget returns `NoMoreRetries`, which is
not retryable. -/
theorem claim_C9_witness :
    TaxInfoError.retryable TaxInfoError.NoMoreRetries = false :=
  claim_C9 (fun _ => AttemptOutcome.elapsed) TaxInfoError.NoMoreRetries rfl

/-- Split a character list into maximal whitespace-free tokens, carrying
the current token in reverse in the accumulator. -/
def splitWsAux : List Char → List Char → List (List Char)
  | [], acc => if acc.isEmpty then [] else [acc.reverse]
  | c :: cs, acc =>
    if c.isWhitespace then
      if acc.isEmpty then splitWsAux cs []
      else acc.reverse :: splitWsAux cs []
    else splitWsAux cs (c :: acc)

/-- Whitespace-separated tokens of a string. -/
def tokensOf (s : String) : List (List Char) :=
  splitWsAux s.data []

/-- Strip a literal key off the front of a token, returning the remainder,
or `none` when the token does not start with the key. -/
def stripKey : List Char → List Char → Option (List Char)
  | [], rest => some rest
  | _ :: _, [] => none
  | k :: ks, c :: cs => if k = c then stripKey ks cs else none

/-- The capture of the first token carrying the given key, e.g. the
`1234` of `LocationCode=1234` for key `LocationCode=`. -/
def fieldValue (key : List Char) : List (List Char) → Option (List Char)
  | [] => none
  | t :: ts =>
    match stripKey key t with
    | some v => some v
    | none => fieldValue key ts

/-- A rate capture written without a leading zero: a dot followed by
digits, read as an exact decimal fraction (numerator, power-of-ten
denominator). -/
def parseRate (l : List Char) : Option (Nat × Nat) :=
  match l with
  | '.' :: ds =>
    match parseDigits ds with
    | some n => some (n, 10 ^ ds.length)
    | none => none
  | _ => none

/-- Modelled from the spec: the repository's `src/` only ships the
structured-markup (XML) decoder, so the fixed-grammar text variant's
minimal Tax Result (location code, rate, status code; no address or
breakdown data) is taken from the spec's words.  The decimal rate is kept
exactly as numerator over power-of-ten denominator. -/
structure TextTaxInfo where
  loccode : Nat
  rateNum : Nat
  rateDen : Nat
  code : Code
deriving DecidableEq, Repr

/-- The rate of a text-variant Tax Result as a rational number. -/
def TextTaxInfo.rate (t : TextTaxInfo) : ℚ :=
  (t.rateNum : ℚ) / t.rateDen

/-- Modelled from the spec: the fixed-grammar text-variant decoder is not
present under `src/`; following the spec's words it parses one line
matching `LocationCode=<digits> Rate=.<digits> ResultCode=<digits>`
(whitespace-separated, rate written without a leading zero), each named
capture required and independently parseable as its numeric type, with a
distinct diagnostic per failing field, and validates the status code
against the closed enumeration via the source's `TryFrom<u8>` table. -/
def textDecode (s : String) : Except String TextTaxInfo :=
  let toks := tokensOf s
  match fieldValue "LocationCode=".data toks with
  | none => .error "location field missing"
  | some locS =>
    match parseDigits locS with
    | none => .error "location field not numeric"
    | some loc =>
      match fieldValue "Rate=".data toks with
      | none => .error "rate field missing"
      | some rateS =>
        match parseRate rateS with
        | none => .error "rate field not numeric"
        | some rate =>
          match fieldValue "ResultCode=".data toks with
          | none => .error "code field missing"
          | some codeS =>
            match parseDigits codeS with
            | none => .error "code field not numeric"
            | some n =>
              match Code.tryFrom n with
              | .error m => .error m
              | .ok c => .ok ⟨loc, rate.1, rate.2, c⟩

/-- C5: the text-grammar input `LocationCode=1234 Rate=.095 ResultCode=0`
decodes to the minimal Tax Result with location 1234, rate 0.095 and the
success code `AddrFound`; absence of the pattern, absence of a named
group, and a non-numeric capture each fail with a distinct diagnostic for
the failing field. -/
theorem claim_C5 :
    textDecode "LocationCode=1234 Rate=.095 ResultCode=0" =
      Except.ok ⟨1234, 95, 1000, Code.AddrFound⟩ ∧
    TextTaxInfo.rate ⟨1234, 95, 1000, Code.AddrFound⟩ = (0.095 : ℚ) ∧
    (Code.AddrFound).is_error = false ∧
    textDecode "no pattern at all" = Except.error "location field missing" ∧
    textDecode "LocationCode=1234 Rate=.095" =
      Except.error "code field missing" ∧
    textDecode "LocationCode=1234 ResultCode=0" =
      Except.error "rate field missing" ∧
    textDecode "LocationCode=abc Rate=.095 ResultCode=0" =
      Except.error "location field not numeric" ∧
    textDecode "LocationCode=1234 Rate=.095 ResultCode=zz" =
      Except.error "code field not numeric" ∧
    ("location field missing" ≠ "rate field missing" ∧
     "rate field missing" ≠ "code field missing" ∧
     "location field missing" ≠ "code field missing") := by
  refine ⟨by decide, ?_, by decide, by decide, by decide, by decide, by decide,
    by decide, by decide, by decide, by decide⟩
  unfold TextTaxInfo.rate
  norm_num

end Wataxrate
